import Mathlib

/-!
Verification of the Firewall Applicability Resolver and Connectivity Policy
Aggregator of the firewall-discovery tool.  The frontend components
(`FirewallDiscovery.js`, `ConnectivityCheck.js`) are embedded from their
JavaScript source; the backend core (resolver, orchestrator, aggregator) is
documented in the repository (README rule table, API docs, spec) but its
Python source is not in the tree, so those definitions are modelled from the
spec and marked as such.
-/

namespace FwDiscovery

/-- The closed enumeration of firewall platforms, in declaration order
(ExternalCheckpoint, InternalCheckpoint, Illumio, NSX). -/
inductive FirewallPlatform
  | externalCheckpoint
  | internalCheckpoint
  | illumio
  | nsx
  deriving DecidableEq, Repr

/-- Declaration order of the platform enumeration. -/
def FirewallPlatform.all : List FirewallPlatform :=
  [.externalCheckpoint, .internalCheckpoint, .illumio, .nsx]

/-- HostRecord as produced by the inventory collaborator:
{hostname, ip_address, location, network_zone, platform, os_type}. -/
structure HostRecord where
  hostname : String
  ip_address : String
  location : String
  network_zone : String
  platform : String
  os_type : String
  deriving DecidableEq, Repr

/-- Modelled from the spec: the applicability rule table of §4.1, which is
also the README's "Firewall Platform Detection" table
(src/unnamed/part_000 lines 168-177).  The backend implementation
(backend/services/firewall_discovery.py) is not in the source tree.
Each rule is a predicate on one host attribute. -/
def ruleMatches (p : FirewallPlatform) (h : HostRecord) : Bool :=
  match p with
  | .externalCheckpoint => h.location == "DMZ"
  | .internalCheckpoint => h.network_zone == "High Risk"
  | .illumio => h.os_type == "Windows" || h.os_type == "Linux"
  | .nsx => h.platform == "ESX"

/-- Modelled from the spec: `resolve(host) -> ordered set of FirewallPlatform`.
Rules are evaluated independently and the result keeps platform declaration
order (the list of all platforms is filtered, so match order is irrelevant). -/
def resolve (h : HostRecord) : List FirewallPlatform :=
  FirewallPlatform.all.filter (fun p => ruleMatches p h)

/-- The per-platform boolean discovery summary
{external_checkpoint, internal_checkpoint, illumio, nsx}. -/
structure DiscoverySummary where
  external_checkpoint : Bool
  internal_checkpoint : Bool
  illumio : Bool
  nsx : Bool
  deriving DecidableEq, Repr

/-- Modelled from the spec: the discovery summary is the per-platform
membership bitmap of an applicable-platform set. -/
def summaryOf (ps : List FirewallPlatform) : DiscoverySummary :=
  { external_checkpoint := ps.contains .externalCheckpoint
    internal_checkpoint := ps.contains .internalCheckpoint
    illumio := ps.contains .illumio
    nsx := ps.contains .nsx }

/-! ## Platform query results and the connectivity aggregator -/

/-- Status of one (host, platform) adapter call:
success, not_implemented or error. -/
inductive QueryStatus
  | success
  | not_implemented
  | error
  deriving DecidableEq, Repr

/-- A definitive policy decision: {allowed: bool, raw_decision: string}. -/
structure Decision where
  allowed : Bool
  raw_decision : String
  deriving DecidableEq, Repr

/-- A rule summary as surfaced in matched_rules / matching_rules
(the fields the frontend renders). -/
structure RuleSummary where
  rule_id : String
  rule_name : String
  enabled : Bool
  action : String
  deriving DecidableEq, Repr

/-- PlatformQueryResult: {platform, status, decision, matched_rules, message};
one instance per (host, platform) pair queried. -/
structure PlatformQueryResult where
  platform : FirewallPlatform
  status : QueryStatus
  decision : Option Decision
  matched_rules : List RuleSummary
  message : Option String
  deriving DecidableEq, Repr

/-- A platform result counts toward the allowed computation only when it is
definitive: status=success with a decision present; this function extracts
that decision's allowed bit, and is none otherwise. -/
def definitiveAllowed (r : PlatformQueryResult) : Option Bool :=
  if r.status = QueryStatus.success then r.decision.map (fun d => d.allowed) else none

/-- Whether a result is definitive (status=success, decision present). -/
def definitive (r : PlatformQueryResult) : Bool :=
  (definitiveAllowed r).isSome

/-- The sequence of definitive allowed bits of a result list. -/
def decisionsOf (rs : List PlatformQueryResult) : List Bool :=
  rs.filterMap definitiveAllowed

/-- The tri-state aggregated connectivity verdict. -/
inductive Verdict
  | allowed
  | blocked
  | indeterminate
  deriving DecidableEq, Repr

/-- Modelled from the spec: the final aggregated allowed verdict of §4.4
(backend/services/rule_checker.py is not in the source tree).  True only if
every definitive platform reports allowed=true, false if any reports
allowed=false, indeterminate when no platform returned a definitive
decision. -/
def aggregateVerdict (rs : List PlatformQueryResult) : Verdict :=
  let ds := decisionsOf rs
  if ds.isEmpty then Verdict.indeterminate
  else if ds.all (fun b => b) then Verdict.allowed
  else Verdict.blocked

/-- AggregatedConnectivityResult: the per-platform detail together with the
aggregated verdict. -/
structure ConnectivityResponse where
  rule_results : List PlatformQueryResult
  verdict : Verdict
  deriving DecidableEq, Repr

/-- Modelled from the spec: the aggregator keeps every per-platform result in
the detail and computes the verdict from the definitive ones. -/
def aggregate (rs : List PlatformQueryResult) : ConnectivityResponse :=
  { rule_results := rs, verdict := aggregateVerdict rs }

/-! ## Fan-out orchestrator -/

/-- The error taxonomy of a single adapter call (§4.2, §7). -/
inductive AdapterError
  | timeout
  | connectionError
  | authFailure
  | parseFailure
  | upstreamError
  | notImplemented
  deriving DecidableEq, Repr

/-- The message an adapter error is surfaced with. -/
def AdapterError.describe : AdapterError → String
  | .timeout => "timeout"
  | .connectionError => "connection error"
  | .authFailure => "authentication failure"
  | .parseFailure => "parse failure"
  | .upstreamError => "upstream error"
  | .notImplemented => "not implemented for this platform"

/-- What one adapter call can come back with: a payload (optional decision
plus matched rules) or an element of the error taxonomy. -/
def AdapterOutcome : Type :=
  Except AdapterError (Option Decision × List RuleSummary)

/-- Modelled from the spec: the orchestrator downgrades a per-call outcome
into a PlatformQueryResult — success keeps the payload, NotImplemented
becomes status=not_implemented, every other error becomes status=error with
a message; no outcome escapes as a request-level failure. -/
def runCall (p : FirewallPlatform) (outcome : AdapterOutcome) : PlatformQueryResult :=
  match outcome with
  | Except.ok (d, rules) =>
      { platform := p, status := QueryStatus.success, decision := d
        matched_rules := rules, message := none }
  | Except.error AdapterError.notImplemented =>
      { platform := p, status := QueryStatus.not_implemented, decision := none
        matched_rules := [], message := some (AdapterError.describe AdapterError.notImplemented) }
  | Except.error e =>
      { platform := p, status := QueryStatus.error, decision := none
        matched_rules := [], message := some (AdapterError.describe e) }

/-- Modelled from the spec: the fan-out over a dispatched call list — each
(platform, outcome) slot is converted independently into its own result
entry. -/
def fanOutCalls (calls : List (FirewallPlatform × AdapterOutcome)) :
    List PlatformQueryResult :=
  calls.map (fun c => runCall c.1 c.2)

/-- Modelled from the spec: the platforms queried on the connectivity path —
those applicable to at least one of the two endpoints, kept in declaration
order. -/
def connectivityPlatforms (src dst : HostRecord) : List FirewallPlatform :=
  FirewallPlatform.all.filter (fun p => (resolve src).contains p || (resolve dst).contains p)

/-- Modelled from the spec: rule_results of the connectivity path — one
entry per platform applicable to at least one endpoint, produced by that
platform's adapter. -/
def connectivityRuleResults (src dst : HostRecord)
    (adapter : FirewallPlatform → AdapterOutcome) : List PlatformQueryResult :=
  (connectivityPlatforms src dst).map (fun p => runCall p (adapter p))

/-- Modelled from the spec: the discovery path queries only platforms the
resolver authorized for the host. -/
def discoveryResults (h : HostRecord)
    (adapter : FirewallPlatform → AdapterOutcome) : List PlatformQueryResult :=
  (resolve h).map (fun p => runCall p (adapter p))

/-! ## Request validation and handlers -/

/-- ConnectivityQuery: {source, destination, port, protocol}. -/
structure ConnectivityQuery where
  source : String
  destination : String
  port : Int
  protocol : String
  deriving DecidableEq, Repr

/-- A discovery request carries an application_name or a hostname. -/
structure DiscoveryRequest where
  application_name : Option String
  hostname : Option String
  deriving DecidableEq, Repr

/-- Port must lie in 1-65535. -/
def validPort (port : Int) : Bool :=
  1 ≤ port && port ≤ 65535

/-- Protocol must be TCP or UDP. -/
def validProtocol (proto : String) : Bool :=
  proto == "TCP" || proto == "UDP"

/-- Modelled from the spec: a connectivity request is well-formed when the
port is in range and the protocol supported. -/
def validConnectivity (q : ConnectivityQuery) : Bool :=
  validPort q.port && validProtocol q.protocol

/-- Modelled from the spec: a discovery request is well-formed when at least
one identifier is present. -/
def validDiscovery (q : DiscoveryRequest) : Bool :=
  q.application_name.isSome || q.hostname.isSome

/-- Modelled from the spec: the connectivity handler — validation happens
synchronously before any fan-out; the second component is the log of
platforms actually dispatched to, empty when the request is rejected. -/
def handleConnectivity (q : ConnectivityQuery) (src dst : HostRecord)
    (adapter : FirewallPlatform → AdapterOutcome) :
    Except String ConnectivityResponse × List FirewallPlatform :=
  if validConnectivity q then
    (Except.ok (aggregate (connectivityRuleResults src dst adapter)),
      connectivityPlatforms src dst)
  else
    (Except.error "ValidationError", [])

/-- The discovery response: per-host applicable sets and the overall
summary (union across hosts). -/
structure DiscoveryResponse where
  hosts : List (HostRecord × List FirewallPlatform)
  summary : DiscoverySummary
  deriving DecidableEq, Repr

/-- Modelled from the spec: the discovery handler — validation happens
synchronously before any work; the second component is the list of hosts
actually processed, empty when the request is rejected. -/
def handleDiscovery (q : DiscoveryRequest) (hosts : List HostRecord) :
    Except String DiscoveryResponse × List HostRecord :=
  if validDiscovery q then
    (Except.ok
      { hosts := hosts.map (fun h => (h, resolve h))
        summary := summaryOf (List.flatten (hosts.map resolve)) },
      hosts)
  else
    (Except.error "ValidationError", [])

/-! ## Frontend rendering (FirewallDiscovery.js, ConnectivityCheck.js) -/

/-- A badge table entry: { label, color }. -/
structure Badge where
  label : String
  color : String
  deriving DecidableEq, Repr

/-- The badges lookup object of renderFirewallBadge (identical in
FirewallDiscovery.js and ConnectivityCheck.js); any other key yields
undefined, modelled as none. -/
def badges (firewallType : String) : Option Badge :=
  if firewallType == "external_checkpoint" then some { label := "External Checkpoint", color := "#e74c3c" }
  else if firewallType == "internal_checkpoint" then some { label := "Internal Checkpoint", color := "#e67e22" }
  else if firewallType == "illumio" then some { label := "Illumio", color := "#3498db" }
  else if firewallType == "nsx" then some { label := "NSX", color := "#2ecc71" }
  else none

/-- The span element renderFirewallBadge produces: its style color and
text. -/
structure BadgeSpan where
  backgroundColor : String
  text : String
  deriving DecidableEq, Repr

/-- renderFirewallBadge: looks firewallType up in the badges object, then
dereferences badge.color and badge.label unconditionally; when the lookup is
undefined the dereference has no value (a TypeError in JS), modelled as
none. -/
def renderFirewallBadge (firewallType : String) : Option BadgeSpan :=
  match badges firewallType with
  | some badge => some { backgroundColor := badge.color, text := badge.label }
  | none => none

/-- The key/activity pairs Object.entries(results.summary) yields, in the
emission order of the summary object. -/
def summaryEntries (s : DiscoverySummary) : List (String × Bool) :=
  [("external_checkpoint", s.external_checkpoint),
   ("internal_checkpoint", s.internal_checkpoint),
   ("illumio", s.illumio),
   ("nsx", s.nsx)]

/-- What renderSummary displays: the warning card or the badge list. -/
inductive SummaryRendering
  | noFirewallsDetected
  | firewallList (items : List (Option BadgeSpan))
  deriving DecidableEq, Repr

/-- renderSummary from FirewallDiscovery.js: filters the summary entries to
the active ones; when none are active it renders the "No Firewalls
Detected" warning card, otherwise a badge per active platform. -/
def renderSummary (s : DiscoverySummary) : SummaryRendering :=
  let active := ((summaryEntries s).filter (fun e => e.2)).map (fun e => e.1)
  if active.isEmpty then SummaryRendering.noFirewallsDetected
  else SummaryRendering.firewallList (active.map renderFirewallBadge)

/-- What the discovery component shows overall: the error-message div on a
failed request, the results container otherwise. -/
inductive DiscoveryView
  | errorMessage (msg : String)
  | resultsView (summary : SummaryRendering)
  deriving DecidableEq, Repr

/-- The component's state machine from handleSearch: a rejected request sets
the error state, a successful one sets the results state. -/
def renderDiscovery (outcome : Except String DiscoverySummary) : DiscoveryView :=
  match outcome with
  | Except.error msg => DiscoveryView.errorMessage msg
  | Except.ok s => DiscoveryView.resultsView (renderSummary s)

/-- renderRuleResults from ConnectivityCheck.js: Object.entries of
rule_results are mapped to cards, but an entry whose value is falsy returns
null and so produces no card; the output is the list of (key, result) cards
actually rendered. -/
def renderRuleResults (rule_results : List (String × Option PlatformQueryResult)) :
    List (String × PlatformQueryResult) :=
  rule_results.filterMap (fun e => e.2.map (fun r => (e.1, r)))

/-! ## Concrete fixtures used by witnesses -/

/-- A definitive allow decision. -/
def allowDecision : Decision := { allowed := true, raw_decision := "allowed" }

/-- A definitive block decision. -/
def blockDecision : Decision := { allowed := false, raw_decision := "blocked" }

/-- Platform A: definitive allowed=true. -/
def resAllow : PlatformQueryResult :=
  { platform := FirewallPlatform.externalCheckpoint, status := QueryStatus.success
    decision := some allowDecision, matched_rules := [], message := none }

/-- Platform B: definitive allowed=false. -/
def resBlock : PlatformQueryResult :=
  { platform := FirewallPlatform.internalCheckpoint, status := QueryStatus.success
    decision := some blockDecision, matched_rules := [], message := none }

/-- Platform C: not_implemented, no decision. -/
def resNotImpl : PlatformQueryResult :=
  { platform := FirewallPlatform.nsx, status := QueryStatus.not_implemented
    decision := none, matched_rules := [], message := some "rule checking not implemented" }

/-- Platform D: errored call, no decision. -/
def resErr : PlatformQueryResult :=
  { platform := FirewallPlatform.illumio, status := QueryStatus.error
    decision := none, matched_rules := [], message := some "timeout" }

/-- An adapter stub whose every call succeeds with an allow decision. -/
def mockAdapter : FirewallPlatform → AdapterOutcome :=
  fun _ => Except.ok (some allowDecision, [])

/-- Example 1's host: web01 in the DMZ running Linux. -/
def web01Host : HostRecord :=
  { hostname := "web01", ip_address := "", location := "DMZ"
    network_zone := "Standard", platform := "Physical", os_type := "Linux" }

/-- Example 2's host: an ESX guest in a High Risk zone running Windows. -/
def esxHost : HostRecord :=
  { hostname := "app02", ip_address := "", location := "Internal"
    network_zone := "High Risk", platform := "ESX", os_type := "Windows" }

/-- A host matching no applicability rule. -/
def bareHost : HostRecord :=
  { hostname := "db01", ip_address := "", location := "Internal"
    network_zone := "Standard", platform := "Physical", os_type := "Solaris" }

/-- Example 3's source: Illumio applicable (Linux), nothing else. -/
def srcIllumioHost : HostRecord :=
  { hostname := "src01", ip_address := "", location := "Internal"
    network_zone := "Standard", platform := "Physical", os_type := "Linux" }

/-- A rule_results object with one truthy and one falsy entry. -/
def rrsSample : List (String × Option PlatformQueryResult) :=
  [("illumio", some resAllow), ("nsx", none)]

/-- A malformed connectivity request: port 0 is out of range. -/
def badQuery : ConnectivityQuery :=
  { source := "appA", destination := "appB", port := 0, protocol := "TCP" }

/-- A well-formed connectivity request. -/
def goodQuery : ConnectivityQuery :=
  { source := "appA", destination := "appB", port := 443, protocol := "TCP" }

/-- A discovery request missing both identifiers. -/
def emptyDiscovery : DiscoveryRequest :=
  { application_name := none, hostname := none }

/-- An adapter stub whose every call times out. -/
def failingAdapter : FirewallPlatform → AdapterOutcome :=
  fun _ => Except.error AdapterError.timeout

/-- A dispatched call list whose second slot times out. -/
def callsTimedOut : List (FirewallPlatform × AdapterOutcome) :=
  [(FirewallPlatform.illumio, Except.ok (some allowDecision, [])),
   (FirewallPlatform.nsx, Except.error AdapterError.timeout)]

/-- The same call list with the second slot succeeding instead. -/
def callsHealthy : List (FirewallPlatform × AdapterOutcome) :=
  [(FirewallPlatform.illumio, Except.ok (some allowDecision, [])),
   (FirewallPlatform.nsx, Except.ok (some allowDecision, []))]

/-! ## Helper lemmas -/

/-- Every platform of the closed enumeration occurs in the declaration list. -/
theorem FirewallPlatform.mem_all (p : FirewallPlatform) : p ∈ FirewallPlatform.all := by
  cases p <;> simp [FirewallPlatform.all]

/-- Membership in `resolve` is exactly "some rule fires". -/
theorem mem_resolve (p : FirewallPlatform) (h : HostRecord) :
    p ∈ resolve h ↔ ruleMatches p h = true := by
  simp [resolve, List.mem_filter, FirewallPlatform.mem_all]

/-- runCall tags the result with the platform it was dispatched for. -/
theorem runCall_platform (p : FirewallPlatform) (o : AdapterOutcome) :
    (runCall p o).platform = p := by
  rcases o with e | v
  · cases e <;> rfl
  · rcases v with ⟨d, rules⟩; rfl

/-- A bit occurs among the definitive decisions exactly when some result
carries it. -/
theorem mem_decisionsOf (b : Bool) (rs : List PlatformQueryResult) :
    b ∈ decisionsOf rs ↔ ∃ r ∈ rs, definitiveAllowed r = some b := by
  simp [decisionsOf, List.mem_filterMap]

/-- A result is definitive exactly when it carries some allowed bit. -/
theorem definitive_iff (r : PlatformQueryResult) :
    definitive r = true ↔ ∃ b, definitiveAllowed r = some b := by
  simp [definitive, Option.isSome_iff_exists]

/-! ## Claim theorems -/

/-- C3: every applicability rule fires independently of the other host
attributes — DMZ location activates ExternalCheckpoint, High Risk zone
activates InternalCheckpoint, Windows/Linux activates Illumio, ESX activates
NSX — and the web01 example resolves to [ExternalCheckpoint, Illumio] with
summary {external_checkpoint:true, internal_checkpoint:false, illumio:true,
nsx:false}. -/
theorem resolve_rule_independence :
    (∀ h : HostRecord, h.location = "DMZ" →
        FirewallPlatform.externalCheckpoint ∈ resolve h)
  ∧ (∀ h : HostRecord, h.network_zone = "High Risk" →
        FirewallPlatform.internalCheckpoint ∈ resolve h)
  ∧ (∀ h : HostRecord, (h.os_type = "Windows" ∨ h.os_type = "Linux") →
        FirewallPlatform.illumio ∈ resolve h)
  ∧ (∀ h : HostRecord, h.platform = "ESX" →
        FirewallPlatform.nsx ∈ resolve h)
  ∧ resolve web01Host = [FirewallPlatform.externalCheckpoint, FirewallPlatform.illumio]
  ∧ summaryOf (resolve web01Host) =
      { external_checkpoint := true, internal_checkpoint := false
        illumio := true, nsx := false } := by
  refine ⟨?_, ?_, ?_, ?_, ?_, ?_⟩
  · intro h hl; rw [mem_resolve]; simp [ruleMatches, hl]
  · intro h hz; rw [mem_resolve]; simp [ruleMatches, hz]
  · intro h ho; rw [mem_resolve]; rcases ho with ho | ho <;> simp [ruleMatches, ho]
  · intro h hp; rw [mem_resolve]; simp [ruleMatches, hp]
  · decide
  · decide

/-- C3 witness: at web01 the DMZ rule and the Linux rule each fire. -/
theorem resolve_rule_independence_witness :
    FirewallPlatform.externalCheckpoint ∈ resolve web01Host ∧
      FirewallPlatform.illumio ∈ resolve web01Host :=
  ⟨resolve_rule_independence.1 web01Host rfl,
   resolve_rule_independence.2.2.1 web01Host (Or.inr rfl)⟩

/-- C4: the resolved set always follows platform declaration order — it is a
sublist of the declaration-order enumeration — and the ESX/High Risk/Windows
example resolves to [InternalCheckpoint, Illumio, NSX]. -/
theorem resolve_declaration_order :
    (∀ h : HostRecord, (resolve h).Sublist FirewallPlatform.all)
  ∧ resolve esxHost =
      [FirewallPlatform.internalCheckpoint, FirewallPlatform.illumio,
       FirewallPlatform.nsx] := by
  refine ⟨?_, by decide⟩
  intro h
  exact List.filter_sublist _

/-- C8: resolve is pure and deterministic — repeated calls on the same
HostRecord all return the same list, and in any batch of calls each output
depends only on that call's own input, not on its position or neighbours. -/
theorem resolve_deterministic :
    (∀ (h : HostRecord) (n : Nat),
        (List.replicate n h).map resolve = List.replicate n (resolve h))
  ∧ (∀ (hs : List HostRecord) (i : Nat),
        (hs.map resolve)[i]? = hs[i]?.map resolve) := by
  constructor
  · intro h n; simp
  · intro hs i; simp

/-- C9: renderFirewallBadge produces a well-defined badge exactly for the
four built-in platform keys; for any other firewallType the badges lookup is
undefined and the subsequent color dereference has no value. -/
theorem renderFirewallBadge_closed_set (firewallType : String) :
    (renderFirewallBadge firewallType).isSome = true ↔
      (firewallType = "external_checkpoint" ∨ firewallType = "internal_checkpoint" ∨
        firewallType = "illumio" ∨ firewallType = "nsx") := by
  unfold renderFirewallBadge badges
  by_cases h1 : firewallType = "external_checkpoint" <;>
    by_cases h2 : firewallType = "internal_checkpoint" <;>
      by_cases h3 : firewallType = "illumio" <;>
        by_cases h4 : firewallType = "nsx" <;>
          simp [h1, h2, h3, h4]

/-- C10: in renderRuleResults a platform entry whose value is falsy is
silently omitted — it yields no rendered card at all — while every truthy
entry yields its card. -/
theorem falsy_rule_results_omitted
    (rrs : List (String × Option PlatformQueryResult)) (k : String) :
    ((∀ v, (k, v) ∈ rrs → v = none) →
        ∀ c ∈ renderRuleResults rrs, c.1 ≠ k)
  ∧ (∀ r : PlatformQueryResult, (k, some r) ∈ rrs → (k, r) ∈ renderRuleResults rrs) := by
  constructor
  · intro hall c hc
    rcases List.mem_filterMap.mp hc with ⟨⟨key, val⟩, he, hmap⟩
    cases val with
    | none => simp at hmap
    | some r =>
        simp only [Option.map_some] at hmap
        cases hmap
        intro hk
        have hk2 : key = k := hk
        exact Option.noConfusion (hall (some r) (hk2 ▸ he))
  · intro r hr
    exact List.mem_filterMap.mpr ⟨(k, some r), hr, rfl⟩

/-- C10 witness: with rule_results {illumio: result, nsx: null} the nsx
entry produces no card and the illumio entry produces its card. -/
theorem falsy_rule_results_omitted_witness :
    (∀ c ∈ renderRuleResults rrsSample, c.1 ≠ "nsx") ∧
      ("illumio", resAllow) ∈ renderRuleResults rrsSample :=
  ⟨(falsy_rule_results_omitted rrsSample "nsx").1
      (by intro v hv
          simp [rrsSample] at hv
          exact hv),
   (falsy_rule_results_omitted rrsSample "illumio").2 resAllow (by simp [rrsSample])⟩

/-- C5: a host matching no applicability rule resolves to the empty set,
its discovery summary is false for every platform, and the component
renders the "No Firewalls Detected" card — a results view, never the
error-message view. -/
theorem no_rule_no_firewalls (h : HostRecord)
    (hm : ∀ p, ruleMatches p h = false) :
    resolve h = []
  ∧ summaryOf (resolve h) =
      { external_checkpoint := false, internal_checkpoint := false
        illumio := false, nsx := false }
  ∧ renderSummary (summaryOf (resolve h)) = SummaryRendering.noFirewallsDetected
  ∧ ∀ msg, renderDiscovery (Except.ok (summaryOf (resolve h))) ≠
      DiscoveryView.errorMessage msg := by
  have hre : resolve h = [] := by
    rw [resolve, List.filter_eq_nil_iff]
    intro p _
    simp [hm p]
  refine ⟨hre, ?_, ?_, ?_⟩
  · rw [hre]; rfl
  · rw [hre]; rfl
  · intro msg; rw [hre]; simp [renderDiscovery]

/-- C5 witness: a Solaris host in a Standard internal zone matches no rule
and is rendered as "no firewalls detected". -/
theorem no_rule_no_firewalls_witness :
    resolve bareHost = [] ∧
      renderSummary (summaryOf (resolve bareHost)) = SummaryRendering.noFirewallsDetected :=
  ⟨(no_rule_no_firewalls bareHost (by intro p; cases p <;> rfl)).1,
   (no_rule_no_firewalls bareHost (by intro p; cases p <;> rfl)).2.2.1⟩

/-- C6: a malformed request — out-of-range port or unsupported protocol for
connectivity, both identifiers missing for discovery — is rejected with a
ValidationError synchronously before any fan-out: the handler returns the
error and its dispatch log is empty. -/
theorem validation_rejected_before_fanout :
    (∀ (q : ConnectivityQuery) (src dst : HostRecord)
        (adapter : FirewallPlatform → AdapterOutcome),
        (q.port < 1 ∨ 65535 < q.port ∨ (q.protocol ≠ "TCP" ∧ q.protocol ≠ "UDP")) →
          handleConnectivity q src dst adapter = (Except.error "ValidationError", []))
  ∧ (∀ (q : DiscoveryRequest) (hosts : List HostRecord),
        q.application_name = none → q.hostname = none →
          handleDiscovery q hosts = (Except.error "ValidationError", [])) := by
  constructor
  · intro q src dst adapter hbad
    have hv : validConnectivity q = false := by
      cases hvc : validConnectivity q
      · rfl
      · exfalso
        simp [validConnectivity, validPort, validProtocol] at hvc
        rcases hbad with hp | hp | ⟨h1, h2⟩
        · omega
        · omega
        · rcases hvc.2 with hh | hh
          · exact h1 hh
          · exact h2 hh
    simp [handleConnectivity, hv]
  · intro q hosts ha hh
    have hv : validDiscovery q = false := by
      simp [validDiscovery, ha, hh]
    simp [handleDiscovery, hv]

/-- C6 witness: a connectivity request with port 0 and a discovery request
with neither identifier are both rejected with empty dispatch logs. -/
theorem validation_rejected_before_fanout_witness :
    handleConnectivity badQuery web01Host bareHost mockAdapter =
        (Except.error "ValidationError", [])
  ∧ handleDiscovery emptyDiscovery [web01Host] = (Except.error "ValidationError", []) :=
  ⟨validation_rejected_before_fanout.1 badQuery web01Host bareHost mockAdapter
      (Or.inl (by decide)),
   validation_rejected_before_fanout.2 emptyDiscovery [web01Host] rfl rfl⟩

/-- C7: a single adapter call that errors or times out is downgraded to a
status=error entry with a message; every dispatched call gets exactly one
entry; changing one call's outcome leaves every other slot's entry
untouched; and with a well-formed request the handler succeeds no matter
what the per-call outcomes are — per-call failures never become
request-level failures. -/
theorem fault_isolation :
    (∀ (p : FirewallPlatform) (e : AdapterError), e ≠ AdapterError.notImplemented →
        (runCall p (Except.error e)).status = QueryStatus.error ∧
          ((runCall p (Except.error e)).message).isSome = true)
  ∧ (∀ calls : List (FirewallPlatform × AdapterOutcome),
        (fanOutCalls calls).length = calls.length)
  ∧ (∀ (callsA callsB : List (FirewallPlatform × AdapterOutcome)) (i j : Nat),
        (∀ m, m ≠ i → callsA[m]? = callsB[m]?) → j ≠ i →
          (fanOutCalls callsA)[j]? = (fanOutCalls callsB)[j]?)
  ∧ (∀ (q : ConnectivityQuery) (src dst : HostRecord)
        (adapter : FirewallPlatform → AdapterOutcome), validConnectivity q = true →
          (handleConnectivity q src dst adapter).1 =
            Except.ok (aggregate (connectivityRuleResults src dst adapter))) := by
  refine ⟨?_, ?_, ?_, ?_⟩
  · intro p e he
    cases e
    · exact ⟨rfl, rfl⟩
    · exact ⟨rfl, rfl⟩
    · exact ⟨rfl, rfl⟩
    · exact ⟨rfl, rfl⟩
    · exact ⟨rfl, rfl⟩
    · exact absurd rfl he
  · intro calls; simp [fanOutCalls]
  · intro callsA callsB i j hsame hji
    simp only [fanOutCalls, List.getElem?_map]
    rw [hsame j hji]
  · intro q src dst adapter hq
    simp [handleConnectivity, hq]

/-- C7 witness: a timed-out NSX call yields a status=error entry with a
message, a sibling slot's entry is identical whether the NSX call timed out
or succeeded, and a valid request with an always-failing adapter still
completes successfully. -/
theorem fault_isolation_witness :
    ((runCall FirewallPlatform.nsx (Except.error AdapterError.timeout)).status =
          QueryStatus.error ∧
        ((runCall FirewallPlatform.nsx (Except.error AdapterError.timeout)).message).isSome =
          true)
  ∧ (fanOutCalls callsTimedOut)[0]? = (fanOutCalls callsHealthy)[0]?
  ∧ (handleConnectivity goodQuery srcIllumioHost bareHost failingAdapter).1 =
      Except.ok (aggregate (connectivityRuleResults srcIllumioHost bareHost failingAdapter)) :=
  ⟨fault_isolation.1 FirewallPlatform.nsx AdapterError.timeout (by decide),
   fault_isolation.2.2.1 callsTimedOut callsHealthy 1 0
     (by intro m hm
         match m with
         | 0 => rfl
         | 1 => exact absurd rfl hm
         | Nat.succ (Nat.succ k) => rfl)
     (by decide),
   fault_isolation.2.2.2 goodQuery srcIllumioHost bareHost failingAdapter (by decide)⟩

/-- C2: every queried platform was authorized by the resolver — on the
discovery path each result's platform belongs to resolve(host), and on the
connectivity path rule_results has an entry for a platform exactly when it
is applicable to at least one of the two endpoints. -/
theorem queried_platforms_authorized :
    (∀ (h : HostRecord) (adapter : FirewallPlatform → AdapterOutcome),
        ∀ r ∈ discoveryResults h adapter, r.platform ∈ resolve h)
  ∧ (∀ (src dst : HostRecord) (adapter : FirewallPlatform → AdapterOutcome)
        (p : FirewallPlatform),
        (∃ r ∈ connectivityRuleResults src dst adapter, r.platform = p) ↔
          (p ∈ resolve src ∨ p ∈ resolve dst)) := by
  constructor
  · intro h adapter r hr
    rcases List.mem_map.mp hr with ⟨p, hp, rfl⟩
    rw [runCall_platform]
    exact hp
  · intro src dst adapter p
    constructor
    · rintro ⟨r, hr, hrp⟩
      rcases List.mem_map.mp hr with ⟨q, hq, rfl⟩
      rw [runCall_platform] at hrp
      subst hrp
      have hf := (List.mem_filter.mp hq).2
      simpa using hf
    · intro hp
      refine ⟨runCall p (adapter p), List.mem_map_of_mem _ ?_, runCall_platform p _⟩
      apply List.mem_filter.mpr
      refine ⟨FirewallPlatform.mem_all p, ?_⟩
      simpa using hp

/-- C2 witness: with a source where only Illumio applies and a destination
where nothing applies, rule_results has an Illumio entry and no
ExternalCheckpoint entry. -/
theorem queried_platforms_authorized_witness :
    (∃ r ∈ connectivityRuleResults srcIllumioHost bareHost mockAdapter,
        r.platform = FirewallPlatform.illumio)
  ∧ ¬(∃ r ∈ connectivityRuleResults srcIllumioHost bareHost mockAdapter,
        r.platform = FirewallPlatform.externalCheckpoint) :=
  ⟨(queried_platforms_authorized.2 srcIllumioHost bareHost mockAdapter
        FirewallPlatform.illumio).mpr (Or.inl (by decide)),
   fun hex =>
     absurd ((queried_platforms_authorized.2 srcIllumioHost bareHost mockAdapter
        FirewallPlatform.externalCheckpoint).mp hex) (by decide)⟩

/-- C1: the aggregated verdict is allowed exactly when there is a definitive
decision and every definitive decision is allowed=true; any definitive
allowed=false forces blocked; every result, definitive or not, stays in the
per-platform detail; non-definitive results are excluded from the allowed
computation; only non-definitive results give indeterminate, never a default
allowed; and the spec's three aggregation examples hold. -/
theorem aggregate_verdict_spec (rs : List PlatformQueryResult) :
    ((aggregate rs).verdict = Verdict.allowed ↔
        (∃ r ∈ rs, definitive r = true) ∧
          ∀ r ∈ rs, definitive r = true → definitiveAllowed r = some true)
  ∧ ((∃ r ∈ rs, definitiveAllowed r = some false) →
        (aggregate rs).verdict = Verdict.blocked)
  ∧ ((aggregate rs).rule_results = rs)
  ∧ (∀ r : PlatformQueryResult, definitive r = false →
        aggregateVerdict (r :: rs) = aggregateVerdict rs)
  ∧ ((∀ r ∈ rs, definitive r = false) →
        (aggregate rs).verdict = Verdict.indeterminate)
  ∧ (aggregate [resAllow, resBlock, resNotImpl]).verdict = Verdict.blocked
  ∧ (aggregate [resAllow, resNotImpl]).verdict = Verdict.allowed
  ∧ (aggregate [resNotImpl, resErr]).verdict = Verdict.indeterminate := by
  have hA : (aggregate rs).verdict = Verdict.allowed ↔
      (∃ r ∈ rs, definitive r = true) ∧
        ∀ r ∈ rs, definitive r = true → definitiveAllowed r = some true := by
    constructor
    · intro hv
      by_cases hemp : (decisionsOf rs).isEmpty
      · simp [aggregate, aggregateVerdict, hemp] at hv
      · by_cases hall : (decisionsOf rs).all (fun b => b)
        · constructor
          · have hne : decisionsOf rs ≠ [] := by
              intro hnil; rw [hnil] at hemp; exact hemp rfl
            rcases List.exists_mem_of_ne_nil _ hne with ⟨b, hb⟩
            rcases (mem_decisionsOf b rs).mp hb with ⟨r, hr, hrb⟩
            exact ⟨r, hr, (definitive_iff r).mpr ⟨b, hrb⟩⟩
          · intro r hr hd
            rcases (definitive_iff r).mp hd with ⟨b, hb⟩
            have hbmem : b ∈ decisionsOf rs := (mem_decisionsOf b rs).mpr ⟨r, hr, hb⟩
            have hbt : b = true := by
              have := List.all_eq_true.mp hall b hbmem
              simpa using this
            rw [hb, hbt]
        · exfalso
          have hemp2 : (decisionsOf rs).isEmpty = false := Bool.eq_false_iff.mpr hemp
          have hall2 : (decisionsOf rs).all (fun b => b) = false := Bool.eq_false_iff.mpr hall
          simp [aggregate, aggregateVerdict, hemp2, hall2] at hv
    · rintro ⟨⟨r0, hr0, hd0⟩, hforall⟩
      have hne : decisionsOf rs ≠ [] := by
        rcases (definitive_iff r0).mp hd0 with ⟨b, hb⟩
        exact List.ne_nil_of_mem ((mem_decisionsOf b rs).mpr ⟨r0, hr0, hb⟩)
      have hemp : (decisionsOf rs).isEmpty = false := by
        cases hcase : decisionsOf rs with
        | nil => exact absurd hcase hne
        | cons x xs => rfl
      have hallb : (decisionsOf rs).all (fun b => b) = true := by
        apply List.all_eq_true.mpr
        intro b hb
        rcases (mem_decisionsOf b rs).mp hb with ⟨r, hr, hrb⟩
        have hd : definitive r = true := (definitive_iff r).mpr ⟨b, hrb⟩
        rw [hforall r hr hd] at hrb
        simpa using (Option.some.inj hrb).symm
      simp [aggregate, aggregateVerdict, hemp, hallb]
  have hB : (∃ r ∈ rs, definitiveAllowed r = some false) →
      (aggregate rs).verdict = Verdict.blocked := by
    rintro ⟨r, hr, hrf⟩
    have hfmem : false ∈ decisionsOf rs := (mem_decisionsOf false rs).mpr ⟨r, hr, hrf⟩
    have hemp : (decisionsOf rs).isEmpty = false := by
      cases hcase : decisionsOf rs with
      | nil => rw [hcase] at hfmem; exact absurd hfmem (List.not_mem_nil false)
      | cons x xs => rfl
    have hall : (decisionsOf rs).all (fun b => b) = false := by
      apply Bool.eq_false_iff.mpr
      intro hcontra
      have := List.all_eq_true.mp hcontra false hfmem
      simp at this
    simp [aggregate, aggregateVerdict, hemp, hall]
  have hD : ∀ r : PlatformQueryResult, definitive r = false →
      aggregateVerdict (r :: rs) = aggregateVerdict rs := by
    intro r hd
    cases hcase : definitiveAllowed r with
    | none => simp [aggregateVerdict, decisionsOf, List.filterMap_cons, hcase]
    | some b => exfalso; simp [definitive, hcase] at hd
  have hE : (∀ r ∈ rs, definitive r = false) →
      (aggregate rs).verdict = Verdict.indeterminate := by
    intro hall
    have hnil : decisionsOf rs = [] := by
      rw [decisionsOf, List.filterMap_eq_nil_iff]
      intro r hr
      cases hcase : definitiveAllowed r with
      | none => rfl
      | some b => exfalso; have := hall r hr; simp [definitive, hcase] at this
    simp [aggregate, aggregateVerdict, hnil]
  exact ⟨hA, hB, rfl, hD, hE, by decide, by decide, by decide⟩

/-- C1 witness: with {A: allowed=true, B: allowed=false, C: not_implemented}
the aggregated verdict is blocked — B's definitive allowed=false forces it. -/
theorem aggregate_verdict_spec_witness :
    (aggregate [resAllow, resBlock, resNotImpl]).verdict = Verdict.blocked :=
  (aggregate_verdict_spec [resAllow, resBlock, resNotImpl]).2.1
    ⟨resBlock, by decide, by decide⟩

end FwDiscovery
